import Mathlib

/-!
Shallow embedding of `ArVideoExternalSource` (src/ArVideoExternalSource.h).

The C++ class holds a frame buffer (`myData`, an `unsigned char *`), its
dimensions (`myWidth`, `myHeight`, C++ `int`, modelled as `Int`), an
ownership flag (`myDataAllocated`), an open flag (`myOpen`), an updated
flag (`myUpdated`) and a mutex (`myDataMutex`, modelled as a boolean
"locked" flag under the single-threaded interleaving used here).

Raw memory is modelled by `Mem`: a list of allocated blocks (address to
byte contents), a fresh-address counter, a log of addresses passed to
`delete[]` and a log of allocations made by `new[]`.  Address `0` plays
the role of the null pointer; fresh addresses start at `1`.  `new[]` can
fail (C++ throws `std::bad_alloc`); the model threads an `allocOk`
oracle through `updateVideoDataCopy` and returns `Except.error` with the
state at the point the exception propagates out of the member function.
-/

/-- Byte contents of one heap block (values of C++ `unsigned char`). -/
abbrev Block := List Nat

/-- Lookup of an address in an allocation list (first match wins). -/
def blockLookup : List (Nat × Block) → Nat → Option Block
  | [], _ => none
  | b :: bs, a => if b.1 = a then some b.2 else blockLookup bs a

/-- Overwrite the contents of the block at address `a` (other blocks kept). -/
def blockWrite : List (Nat × Block) → Nat → Block → List (Nat × Block)
  | [], _, _ => []
  | b :: bs, a, cs => (if b.1 = a then (a, cs) else b) :: blockWrite bs a cs

/-- Remove the block at address `a` (the effect of `delete[]`). -/
def blockErase (bs : List (Nat × Block)) (a : Nat) : List (Nat × Block) :=
  bs.filter (fun b => b.1 ≠ a)

/-- The heap: allocated blocks, fresh-address counter, free log, alloc log. -/
structure Mem where
  blocks : List (Nat × Block)
  next : Nat
  freed : List Nat
  allocs : List (Nat × Nat)
deriving DecidableEq

/-- The empty heap; addresses start at 1, so 0 is never a valid block. -/
def Mem.empty : Mem := ⟨[], 1, [], []⟩

/-- Read the block at address `a`, if allocated. -/
def Mem.lookup (m : Mem) (a : Nat) : Option Block := blockLookup m.blocks a

/-- `new unsigned char[size]`: a fresh zero-initialised block at a fresh
address (C++ `new[]` of `unsigned char` is uninitialised; the choice of
contents is irrelevant to every property below, zero is used).  Returns the
new heap and the address. -/
def Mem.alloc (m : Mem) (size : Nat) : Mem × Nat :=
  (⟨(m.next, List.replicate size 0) :: m.blocks, m.next + 1,
    m.freed, (m.next, size) :: m.allocs⟩, m.next)

/-- `delete[] a`: the block is gone and the address is logged as freed. -/
def Mem.free (m : Mem) (a : Nat) : Mem :=
  ⟨blockErase m.blocks a, m.next, a :: m.freed, m.allocs⟩

/-- Overwrite the contents of an allocated block (in-place mutation). -/
def Mem.write (m : Mem) (a : Nat) (cs : Block) : Mem :=
  ⟨blockWrite m.blocks a cs, m.next, m.freed, m.allocs⟩

/-- `memcpy(dst, src, n)` onto whole blocks: the first `n` bytes of the
destination block are replaced by the first `n` bytes of the source
block.  If either block is unallocated the C++ call is undefined
behaviour; the model leaves memory unchanged in that case. -/
def copyInto (dst src : Block) (n : Nat) : Block :=
  src.take n ++ dst.drop n

/-- `memcpy` at the heap level. -/
def Mem.memcpy (m : Mem) (dst src : Nat) (n : Nat) : Mem :=
  match m.lookup dst, m.lookup src with
  | some d, some s => m.write dst (copyInto d s n)
  | _, _ => m

/-- Heap well-formedness: every allocated address is nonzero (not null)
and below the fresh-address counter. -/
def Mem.WF (m : Mem) : Prop := ∀ b ∈ m.blocks, 0 < b.1 ∧ b.1 < m.next

instance (m : Mem) : Decidable m.WF := List.decidableBAll _ m.blocks

/-- The protected state of `ArVideoExternalSource`
(src/ArVideoExternalSource.h lines 58-67).  `myData` is an address into
`Mem` (0 = null); `myDataMutexLocked` models `myDataMutex`. -/
structure ArVideoExternalSource where
  myName : String
  myOpen : Bool
  myUpdated : Bool
  myWidth : Int
  myHeight : Int
  myDataAllocated : Bool
  myData : Nat
  myDataMutexLocked : Bool
deriving DecidableEq

/-- The constructor `ArVideoExternalSource(const char *name)`
(lines 70-76): starts closed, not updated, zero dimensions, no buffer. -/
def mkArVideoExternalSource (name : String) : ArVideoExternalSource :=
  ⟨name, false, false, 0, 0, false, 0, false⟩

namespace ArVideoExternalSource

/-- `lock()` (lines 100-102): acquire `myDataMutex`. -/
def lock (s : ArVideoExternalSource) : ArVideoExternalSource :=
  { s with myDataMutexLocked := true }

/-- `unlock()` (lines 103-105): release `myDataMutex`. -/
def unlock (s : ArVideoExternalSource) : ArVideoExternalSource :=
  { s with myDataMutexLocked := false }

/-- `updated()` (lines 96-99): set `myUpdated`. -/
def updated (s : ArVideoExternalSource) : ArVideoExternalSource :=
  { s with myUpdated := true }

/-- `bytesPerPixel()` (line 121): fixed 3 bytes per pixel. -/
def bytesPerPixel (_ : ArVideoExternalSource) : Int := 3

/-- `setVideoDataPtr(ptr, width, height)` (lines 85-95): free the owned
buffer if there is one, then store the caller's pointer and the
dimensions; always returns `true`. -/
def setVideoDataPtr (s : ArVideoExternalSource) (m : Mem) (ptr : Nat)
    (width height : Int) : ArVideoExternalSource × Mem × Bool :=
  let sm : ArVideoExternalSource × Mem :=
    if s.myDataAllocated then ({ s with myDataAllocated := false }, m.free s.myData)
    else (s, m)
  ({ sm.1 with myData := ptr, myWidth := width, myHeight := height }, sm.2, true)

/-- `updateVideoDataCopy(data, width, height)` (lines 107-119): under the
lock, allocate an owned buffer if none is allocated yet (the dimensions
are not stored and the existing allocation is reused blindly, per the
`TODO reallocate if needed` note in the source), `memcpy`
`width*height*bytesPerPixel()` bytes from `data`, unlock, mark updated,
return `true`.  If `new[]` is reached and fails, `std::bad_alloc`
propagates out: the `error` payload is the state at that point (mutex
still held, every buffer field and the heap untouched). -/
def updateVideoDataCopy (s : ArVideoExternalSource) (allocOk : Bool) (m : Mem)
    (data : Nat) (width height : Int) :
    Except (ArVideoExternalSource × Mem) (ArVideoExternalSource × Mem × Bool) :=
  let s₁ := s.lock
  if s₁.myDataAllocated then
    let m₁ := m.memcpy s₁.myData data (width * height * s₁.bytesPerPixel).toNat
    .ok ((s₁.unlock).updated, m₁, true)
  else if allocOk then
    let am := m.alloc (width * height * s₁.bytesPerPixel).toNat
    let s₂ := { s₁ with myData := am.2, myDataAllocated := true }
    let m₂ := am.1.memcpy s₂.myData data (width * height * s₂.bytesPerPixel).toNat
    .ok ((s₂.unlock).updated, m₂, true)
  else
    .error (s₁, m)

/-- The destructor `~ArVideoExternalSource()` (lines 77-82): under the
lock, `delete[] myData` if and only if `myDataAllocated`.  Only the heap
outcome matters after destruction. -/
def destructor (s : ArVideoExternalSource) (m : Mem) : Mem :=
  if s.myDataAllocated then m.free s.myData else m

/-- `updateVideo()` (line 122): always `true`. -/
def updateVideo (_ : ArVideoExternalSource) : Bool := true

/-- `updateVideoNow()` (line 123): reports `myUpdated` (the spec's
`isFrameReady()` / `hasNewFrame()`). -/
def updateVideoNow (s : ArVideoExternalSource) : Bool := s.myUpdated

/-- `open()` (lines 130-132). -/
def openSource (s : ArVideoExternalSource) : ArVideoExternalSource :=
  { s with myOpen := true }

/-- `close()` (lines 133-135). -/
def close (s : ArVideoExternalSource) : ArVideoExternalSource :=
  { s with myOpen := false }

/-- `isOpen()` (lines 136-138). -/
def isOpen (s : ArVideoExternalSource) : Bool := s.myOpen

/-- `getWidth()` (lines 139-141). -/
def getWidth (s : ArVideoExternalSource) : Int := s.myWidth

/-- `getHeight()` (lines 142-144). -/
def getHeight (s : ArVideoExternalSource) : Int := s.myHeight

/-- `getData()` (lines 145-147): returns the raw pointer. -/
def getData (s : ArVideoExternalSource) : Nat := s.myData

/-- Dereferencing the pointer returned by `getData()`: the bytes of the
current frame, if any buffer is installed. -/
def frameBytes (s : ArVideoExternalSource) (m : Mem) : Option Block :=
  m.lookup s.getData

end ArVideoExternalSource

/-- The component/heap state after an `updateVideoDataCopy` call, whether
it returned normally or threw `bad_alloc`. -/
def copyOutcome
    (r : Except (ArVideoExternalSource × Mem) (ArVideoExternalSource × Mem × Bool)) :
    ArVideoExternalSource × Mem :=
  match r with
  | .ok (s, m, _) => (s, m)
  | .error (s, m) => (s, m)

/-- Whether an `updateVideoDataCopy` call returned normally. -/
def copySucceeded
    (r : Except (ArVideoExternalSource × Mem) (ArVideoExternalSource × Mem × Bool)) :
    Bool :=
  match r with
  | .ok _ => true
  | .error _ => false

/-- The public mutating operations of the class, for trace properties.
`opCopy` carries the allocation oracle for that call. -/
inductive Op where
  | opOpen
  | opClose
  | opLock
  | opUnlock
  | opUpdated
  | opSetPtr (ptr : Nat) (width height : Int)
  | opCopy (allocOk : Bool) (data : Nat) (width height : Int)
deriving DecidableEq

/-- Running one operation on component + heap.  For `opCopy`, a
`bad_alloc` leaves the state carried by the exception path. -/
def applyOp (op : Op) (sm : ArVideoExternalSource × Mem) :
    ArVideoExternalSource × Mem :=
  match op with
  | .opOpen => (sm.1.openSource, sm.2)
  | .opClose => (sm.1.close, sm.2)
  | .opLock => (sm.1.lock, sm.2)
  | .opUnlock => (sm.1.unlock, sm.2)
  | .opUpdated => (sm.1.updated, sm.2)
  | .opSetPtr p w h =>
    let r := sm.1.setVideoDataPtr sm.2 p w h
    (r.1, r.2.1)
  | .opCopy ok d w h =>
    copyOutcome (sm.1.updateVideoDataCopy ok sm.2 d w h)

/-- Running a sequence of operations, oldest first. -/
def applyOps (ops : List Op) (sm : ArVideoExternalSource × Mem) :
    ArVideoExternalSource × Mem :=
  ops.foldl (fun acc op => applyOp op acc) sm

/-! ### Helper lemmas about the heap model -/

theorem blockLookup_write_ne {a b : Nat} (h : a ≠ b) (bs : List (Nat × Block))
    (cs : Block) : blockLookup (blockWrite bs b cs) a = blockLookup bs a := by
  induction bs with
  | nil => rfl
  | cons hd tl ih =>
    by_cases hb : hd.1 = b
    · simp [blockWrite, blockLookup, hb, Ne.symm h, ih]
    · simp [blockWrite, blockLookup, hb, ih]

theorem blockLookup_write_self (bs : List (Nat × Block)) (a : Nat) (cs : Block) :
    blockLookup (blockWrite bs a cs) a = (blockLookup bs a).map (fun _ => cs) := by
  induction bs with
  | nil => rfl
  | cons hd tl ih =>
    by_cases hb : hd.1 = a
    · simp [blockWrite, blockLookup, hb, ih]
    · simp [blockWrite, blockLookup, hb, ih]

theorem blockLookup_lt {bs : List (Nat × Block)} {next a : Nat} {v : Block}
    (hwf : ∀ b ∈ bs, 0 < b.1 ∧ b.1 < next) (hl : blockLookup bs a = some v) :
    0 < a ∧ a < next := by
  induction bs with
  | nil => simp [blockLookup] at hl
  | cons hd tl ih =>
    by_cases hb : hd.1 = a
    · exact hb ▸ hwf hd (List.mem_cons_self hd tl)
    · rw [blockLookup, if_neg hb] at hl
      exact ih (fun b hm => hwf b (List.mem_cons_of_mem hd hm)) hl

theorem Mem.lookup_write_ne (m : Mem) {a b : Nat} (h : a ≠ b) (cs : Block) :
    (m.write b cs).lookup a = m.lookup a :=
  blockLookup_write_ne h m.blocks cs

theorem Mem.lookup_write_self (m : Mem) (a : Nat) (cs : Block) :
    (m.write a cs).lookup a = (m.lookup a).map (fun _ => cs) :=
  blockLookup_write_self m.blocks a cs

theorem Mem.lookup_lt_next {m : Mem} (hwf : m.WF) {a : Nat} {v : Block}
    (hl : m.lookup a = some v) : 0 < a ∧ a < m.next :=
  blockLookup_lt hwf hl

theorem Mem.lookup_alloc_self (m : Mem) (sz : Nat) :
    (m.alloc sz).1.lookup m.next = some (List.replicate sz 0) := by
  simp [Mem.alloc, Mem.lookup, blockLookup]

theorem Mem.lookup_alloc_ne (m : Mem) {a : Nat} (h : a ≠ m.next) (sz : Nat) :
    (m.alloc sz).1.lookup a = m.lookup a := by
  simp [Mem.alloc, Mem.lookup, blockLookup, Ne.symm h]

theorem Mem.memcpy_next (m : Mem) (a b n : Nat) : (m.memcpy a b n).next = m.next := by
  cases h1 : m.lookup a <;> cases h2 : m.lookup b <;>
    simp [Mem.memcpy, h1, h2, Mem.write]

theorem Mem.memcpy_freed (m : Mem) (a b n : Nat) : (m.memcpy a b n).freed = m.freed := by
  cases h1 : m.lookup a <;> cases h2 : m.lookup b <;>
    simp [Mem.memcpy, h1, h2, Mem.write]

theorem Mem.memcpy_allocs (m : Mem) (a b n : Nat) :
    (m.memcpy a b n).allocs = m.allocs := by
  cases h1 : m.lookup a <;> cases h2 : m.lookup b <;>
    simp [Mem.memcpy, h1, h2, Mem.write]

theorem Mem.memcpy_lookup_self {m : Mem} {dst src : Nat} {d s : Block}
    (hd : m.lookup dst = some d) (hs : m.lookup src = some s) (n : Nat) :
    (m.memcpy dst src n).lookup dst = some (copyInto d s n) := by
  simp [Mem.memcpy, hd, hs, Mem.lookup_write_self]

theorem Mem.memcpy_lookup_ne {m : Mem} {dst a : Nat} (h : a ≠ dst) (src n : Nat) :
    (m.memcpy dst src n).lookup a = m.lookup a := by
  cases h1 : m.lookup dst <;> cases h2 : m.lookup src <;>
    simp [Mem.memcpy, h1, h2, Mem.lookup_write_ne _ h]

/-! ### Evaluation lemmas for `updateVideoDataCopy` -/

namespace ArVideoExternalSource

theorem updateVideoDataCopy_reuse {s : ArVideoExternalSource}
    (h : s.myDataAllocated = true) (ok : Bool) (m : Mem) (d : Nat) (w k : Int) :
    s.updateVideoDataCopy ok m d w k =
      .ok ({ s with myUpdated := true, myDataMutexLocked := false },
        m.memcpy s.myData d (w * k * 3).toNat, true) := by
  simp [updateVideoDataCopy, lock, unlock, updated, bytesPerPixel, h]

theorem updateVideoDataCopy_alloc {s : ArVideoExternalSource}
    (h : s.myDataAllocated = false) (m : Mem) (d : Nat) (w k : Int) :
    s.updateVideoDataCopy true m d w k =
      .ok ({ s with myData := m.next, myDataAllocated := true,
                    myUpdated := true, myDataMutexLocked := false },
        (m.alloc (w * k * 3).toNat).1.memcpy m.next d (w * k * 3).toNat, true) := by
  simp [updateVideoDataCopy, lock, unlock, updated, bytesPerPixel, Mem.alloc, h]

theorem updateVideoDataCopy_fail {s : ArVideoExternalSource}
    (h : s.myDataAllocated = false) (m : Mem) (d : Nat) (w k : Int) :
    s.updateVideoDataCopy false m d w k = .error (s.lock, m) := by
  simp [updateVideoDataCopy, lock, bytesPerPixel, h]

end ArVideoExternalSource

/-! ### Claim theorems -/

open ArVideoExternalSource

/-- Claim C7: `open()` and `close()` modify only the `isOpen` flag — the
buffer pointer, width, height, ownership tag and pending-update flag are
unchanged — and both are idempotent: calling `close()` twice, or `open()`
twice, leaves `isOpen()` in the same state as calling it once. -/
theorem C7_open_close_touch_only_isOpen (s : ArVideoExternalSource) :
    s.openSource.myData = s.myData ∧ s.openSource.myWidth = s.myWidth ∧
    s.openSource.myHeight = s.myHeight ∧
    s.openSource.myDataAllocated = s.myDataAllocated ∧
    s.openSource.myUpdated = s.myUpdated ∧ s.openSource.myName = s.myName ∧
    s.openSource.myDataMutexLocked = s.myDataMutexLocked ∧
    s.close.myData = s.myData ∧ s.close.myWidth = s.myWidth ∧
    s.close.myHeight = s.myHeight ∧ s.close.myDataAllocated = s.myDataAllocated ∧
    s.close.myUpdated = s.myUpdated ∧ s.close.myName = s.myName ∧
    s.close.myDataMutexLocked = s.myDataMutexLocked ∧
    s.openSource.isOpen = true ∧ s.close.isOpen = false ∧
    s.openSource.openSource.isOpen = s.openSource.isOpen ∧
    s.close.close.isOpen = s.close.isOpen :=
  ⟨rfl, rfl, rfl, rfl, rfl, rfl, rfl, rfl, rfl, rfl, rfl, rfl, rfl, rfl,
   rfl, rfl, rfl, rfl⟩

/-- Claim C8: for every name, a freshly constructed source starts closed
with no buffer: `isOpen()` false, `getWidth()`/`getHeight()` 0,
`getData()` the null pointer (so the frame accessor yields no bytes in
any well-formed heap), and the pending-update flag false. -/
theorem C8_fresh_source_initial_state (name : String) :
    (mkArVideoExternalSource name).isOpen = false ∧
    (mkArVideoExternalSource name).getWidth = 0 ∧
    (mkArVideoExternalSource name).getHeight = 0 ∧
    (mkArVideoExternalSource name).getData = 0 ∧
    (mkArVideoExternalSource name).updateVideoNow = false ∧
    ∀ m : Mem, m.WF → (mkArVideoExternalSource name).frameBytes m = none := by
  refine ⟨rfl, rfl, rfl, rfl, rfl, ?_⟩
  intro m hwf
  cases hl : m.lookup 0 with
  | none =>
    simpa [ArVideoExternalSource.frameBytes, ArVideoExternalSource.getData,
      mkArVideoExternalSource] using hl
  | some v => exact absurd (Mem.lookup_lt_next hwf hl).1 (lt_irrefl 0)

/-- Witness for C8 at name `"cam0"` and the empty heap. -/
theorem C8_fresh_source_initial_state_witness :
    Mem.WF Mem.empty ∧
    (mkArVideoExternalSource "cam0").frameBytes Mem.empty = none :=
  ⟨by decide, (C8_fresh_source_initial_state "cam0").2.2.2.2.2 Mem.empty (by decide)⟩

/-- Claim C9: `updateVideoDataCopy` never changes the reported
dimensions, whatever `width`/`height` arguments it is passed; among the
public mutating operations only `setVideoDataPtr` can change
`getWidth()`/`getHeight()`. -/
theorem C9_only_setVideoDataPtr_changes_dimensions (op : Op)
    (sm : ArVideoExternalSource × Mem)
    (h : ∀ p w k, op ≠ Op.opSetPtr p w k) :
    (applyOp op sm).1.getWidth = sm.1.getWidth ∧
    (applyOp op sm).1.getHeight = sm.1.getHeight := by
  cases op with
  | opOpen => exact ⟨rfl, rfl⟩
  | opClose => exact ⟨rfl, rfl⟩
  | opLock => exact ⟨rfl, rfl⟩
  | opUnlock => exact ⟨rfl, rfl⟩
  | opUpdated => exact ⟨rfl, rfl⟩
  | opSetPtr p w k => exact absurd rfl (h p w k)
  | opCopy ok d w k =>
    cases hal : sm.1.myDataAllocated with
    | true =>
      simp [applyOp, updateVideoDataCopy_reuse hal, copyOutcome,
        ArVideoExternalSource.getWidth, ArVideoExternalSource.getHeight]
    | false =>
      cases ok with
      | true =>
        simp [applyOp, updateVideoDataCopy_alloc hal, copyOutcome,
          ArVideoExternalSource.getWidth, ArVideoExternalSource.getHeight]
      | false =>
        simp [applyOp, updateVideoDataCopy_fail hal, copyOutcome,
          ArVideoExternalSource.lock, ArVideoExternalSource.getWidth,
          ArVideoExternalSource.getHeight]

/-- Witness for C9: a copy update with dimensions 7×9 on a fresh source
leaves the reported dimensions unchanged. -/
theorem C9_only_setVideoDataPtr_changes_dimensions_witness :
    (applyOp (Op.opCopy true 1 7 9) (mkArVideoExternalSource "w9", Mem.empty)).1.getWidth
      = (mkArVideoExternalSource "w9", Mem.empty).1.getWidth :=
  (C9_only_setVideoDataPtr_changes_dimensions (Op.opCopy true 1 7 9)
    (mkArVideoExternalSource "w9", Mem.empty)
    (fun _ _ _ h => Op.noConfusion h)).1

/-- Claim C10: no public operation ever clears the updated flag: once
`updateVideoNow()` is true it remains true after any single public
operation and after any subsequent sequence of operations. -/
theorem C10_updated_flag_never_cleared :
    (∀ (op : Op) (sm : ArVideoExternalSource × Mem),
      sm.1.updateVideoNow = true → (applyOp op sm).1.updateVideoNow = true) ∧
    (∀ (ops : List Op) (sm : ArVideoExternalSource × Mem),
      sm.1.updateVideoNow = true → (applyOps ops sm).1.updateVideoNow = true) := by
  have hop : ∀ (op : Op) (sm : ArVideoExternalSource × Mem),
      sm.1.updateVideoNow = true → (applyOp op sm).1.updateVideoNow = true := by
    intro op sm hu
    cases op with
    | opOpen => exact hu
    | opClose => exact hu
    | opLock => exact hu
    | opUnlock => exact hu
    | opUpdated => rfl
    | opSetPtr p w k =>
      cases hal : sm.1.myDataAllocated <;>
        simpa [applyOp, ArVideoExternalSource.setVideoDataPtr,
          ArVideoExternalSource.updateVideoNow, hal] using hu
    | opCopy ok d w k =>
      cases hal : sm.1.myDataAllocated with
      | true =>
        simp [applyOp, updateVideoDataCopy_reuse hal, copyOutcome,
          ArVideoExternalSource.updateVideoNow]
      | false =>
        cases ok with
        | true =>
          simp [applyOp, updateVideoDataCopy_alloc hal, copyOutcome,
            ArVideoExternalSource.updateVideoNow]
        | false =>
          simpa [applyOp, updateVideoDataCopy_fail hal, copyOutcome,
            ArVideoExternalSource.lock, ArVideoExternalSource.updateVideoNow]
            using hu
  refine ⟨hop, ?_⟩
  intro ops
  induction ops with
  | nil => intro sm hu; exact hu
  | cons op rest ih =>
    intro sm hu
    exact ih (applyOp op sm) (hop op sm hu)

/-- Witness for C10: after `updated()`, running `close()`, a pointer
update and a copy update still leaves the flag set. -/
theorem C10_updated_flag_never_cleared_witness :
    ((mkArVideoExternalSource "w10").updated, Mem.empty).1.updateVideoNow = true ∧
    (applyOps [Op.opClose, Op.opSetPtr 5 2 2, Op.opCopy true 5 2 2]
      ((mkArVideoExternalSource "w10").updated, Mem.empty)).1.updateVideoNow = true :=
  ⟨rfl, C10_updated_flag_never_cleared.2 [Op.opClose, Op.opSetPtr 5 2 2, Op.opCopy true 5 2 2]
    ((mkArVideoExternalSource "w10").updated, Mem.empty) rfl⟩

/-- Claim C3: `setVideoDataPtr(ptr, width, height)` frees a previously
owned buffer first, then installs the caller's pointer with borrowed
ownership and the given dimensions (no copy is made), and returns
success; after such a call the destructor never frees the borrowed
pointer. -/
theorem C3_setVideoDataPtr_borrows (s : ArVideoExternalSource) (m : Mem)
    (ptr : Nat) (w k : Int) :
    (s.myDataAllocated = true →
      (s.setVideoDataPtr m ptr w k).2.1 = m.free s.myData) ∧
    (s.myDataAllocated = false → (s.setVideoDataPtr m ptr w k).2.1 = m) ∧
    (s.setVideoDataPtr m ptr w k).1.myDataAllocated = false ∧
    (s.setVideoDataPtr m ptr w k).1.myData = ptr ∧
    (s.setVideoDataPtr m ptr w k).1.myWidth = w ∧
    (s.setVideoDataPtr m ptr w k).1.myHeight = k ∧
    (s.setVideoDataPtr m ptr w k).2.2 = true ∧
    (∀ m₂ : Mem, ((s.setVideoDataPtr m ptr w k).1).destructor m₂ = m₂) := by
  cases hal : s.myDataAllocated <;>
    simp [ArVideoExternalSource.setVideoDataPtr, ArVideoExternalSource.destructor, hal]

/-- A source owning the block at address 7, for the C3 witness. -/
def c3src : ArVideoExternalSource := ⟨"w3", false, false, 1, 1, true, 7, false⟩

/-- A heap in which address 7 holds the owned 3-byte block. -/
def c3mem : Mem := ⟨[(7, [1, 2, 3])], 8, [], [(7, 3)]⟩

/-- Witness for C3: switching an owning source to a borrowed pointer
frees the old buffer, installs the pointer, and destruction then leaves
the heap alone. -/
theorem C3_setVideoDataPtr_borrows_witness :
    c3src.myDataAllocated = true ∧
    (c3src.setVideoDataPtr c3mem 9 2 3).2.1 = c3mem.free c3src.myData ∧
    (c3src.setVideoDataPtr c3mem 9 2 3).1.myData = 9 ∧
    ((c3src.setVideoDataPtr c3mem 9 2 3).1).destructor c3mem = c3mem :=
  ⟨rfl,
   (C3_setVideoDataPtr_borrows c3src c3mem 9 2 3).1 rfl,
   (C3_setVideoDataPtr_borrows c3src c3mem 9 2 3).2.2.2.1,
   (C3_setVideoDataPtr_borrows c3src c3mem 9 2 3).2.2.2.2.2.2.2 c3mem⟩

/-- Claim C4: a copy update allocates a fresh owned buffer of
`width*height*3` bytes exactly when no owned buffer is currently
allocated; when one exists it reuses that same allocation (same address,
no new allocation, nothing freed) even if the dimensions passed differ
from earlier calls. -/
theorem C4_copy_allocates_only_when_unallocated (s : ArVideoExternalSource)
    (m : Mem) (d : Nat) (w k : Int) :
    (s.myDataAllocated = false →
      (copyOutcome (s.updateVideoDataCopy true m d w k)).1.myData = m.next ∧
      (copyOutcome (s.updateVideoDataCopy true m d w k)).1.myDataAllocated = true ∧
      (copyOutcome (s.updateVideoDataCopy true m d w k)).2.allocs
        = (m.next, (w * k * 3).toNat) :: m.allocs ∧
      (copyOutcome (s.updateVideoDataCopy true m d w k)).2.next = m.next + 1) ∧
    (s.myDataAllocated = true →
      (copyOutcome (s.updateVideoDataCopy true m d w k)).1.myData = s.myData ∧
      (copyOutcome (s.updateVideoDataCopy true m d w k)).2.allocs = m.allocs ∧
      (copyOutcome (s.updateVideoDataCopy true m d w k)).2.next = m.next ∧
      (copyOutcome (s.updateVideoDataCopy true m d w k)).2.freed = m.freed) := by
  constructor
  · intro hal
    rw [updateVideoDataCopy_alloc hal]
    refine ⟨rfl, rfl, ?_, ?_⟩
    · simp [copyOutcome, Mem.memcpy_allocs, Mem.alloc]
    · simp [copyOutcome, Mem.memcpy_next, Mem.alloc]
  · intro hal
    rw [updateVideoDataCopy_reuse hal]
    exact ⟨rfl, Mem.memcpy_allocs m s.myData d (w * k * 3).toNat,
      Mem.memcpy_next m s.myData d (w * k * 3).toNat,
      Mem.memcpy_freed m s.myData d (w * k * 3).toNat⟩

/-- Witness for C4, both branches: a fresh source allocates a 12-byte
block at the next free address; a source already owning a block keeps
the same address and allocates nothing even with other dimensions. -/
theorem C4_copy_allocates_only_when_unallocated_witness :
    (mkArVideoExternalSource "w4").myDataAllocated = false ∧
    (copyOutcome ((mkArVideoExternalSource "w4").updateVideoDataCopy true Mem.empty 0 2 2)).2.allocs
      = (Mem.empty.next, 12) :: Mem.empty.allocs ∧
    c3src.myDataAllocated = true ∧
    (copyOutcome (c3src.updateVideoDataCopy true c3mem 9 5 6)).1.myData = c3src.myData ∧
    (copyOutcome (c3src.updateVideoDataCopy true c3mem 9 5 6)).2.allocs = c3mem.allocs :=
  ⟨rfl,
   ((C4_copy_allocates_only_when_unallocated (mkArVideoExternalSource "w4")
      Mem.empty 0 2 2).1 rfl).2.2.1,
   rfl,
   ((C4_copy_allocates_only_when_unallocated c3src c3mem 9 5 6).2 rfl).1,
   ((C4_copy_allocates_only_when_unallocated c3src c3mem 9 5 6).2 rfl).2.1⟩

/-- Claim C5: after a successful `updateVideoDataCopy(src, w, k)` the
stored frame is a true copy of the first `w*k*3` bytes of the source
buffer, and any later in-place mutation of the source buffer leaves the
bytes reachable from `getData()` unchanged.  (The source buffer must be
a live allocation of at least `w*k*3` bytes distinct from the
component's own buffer, as the C++ contract of `memcpy` requires.) -/
theorem C5_copy_isolation (s : ArVideoExternalSource) (m : Mem)
    (src : Nat) (w k : Int) (bs : Block)
    (hwf : m.WF) (hsrc : m.lookup src = some bs)
    (hlen : (w * k * 3).toNat ≤ bs.length)
    (hsep : s.myDataAllocated = true → s.myData ≠ src ∧ (m.lookup s.myData).isSome) :
    copySucceeded (s.updateVideoDataCopy true m src w k) = true ∧
    Option.map (List.take (w * k * 3).toNat)
      ((copyOutcome (s.updateVideoDataCopy true m src w k)).2.lookup
        (copyOutcome (s.updateVideoDataCopy true m src w k)).1.myData)
      = some (bs.take (w * k * 3).toNat) ∧
    ∀ cs : Block,
      ((copyOutcome (s.updateVideoDataCopy true m src w k)).2.write src cs).lookup
          (copyOutcome (s.updateVideoDataCopy true m src w k)).1.myData
        = (copyOutcome (s.updateVideoDataCopy true m src w k)).2.lookup
            (copyOutcome (s.updateVideoDataCopy true m src w k)).1.myData := by
  cases hal : s.myDataAllocated with
  | false =>
    have hsrcne : src ≠ m.next := Nat.ne_of_lt (Mem.lookup_lt_next hwf hsrc).2
    have hdst := Mem.lookup_alloc_self m (w * k * 3).toNat
    have hsrc2 : (m.alloc (w * k * 3).toNat).1.lookup src = some bs := by
      rw [Mem.lookup_alloc_ne m hsrcne]; exact hsrc
    have hcpy := Mem.memcpy_lookup_self hdst hsrc2 (w * k * 3).toNat
    rw [updateVideoDataCopy_alloc hal]
    refine ⟨rfl, ?_, ?_⟩
    · simp only [copyOutcome, hcpy, Option.map_some', copyInto]
      simp [List.drop_replicate, List.take_take]
    · intro cs
      exact Mem.lookup_write_ne _ (Ne.symm hsrcne) cs
  | true =>
    obtain ⟨hne, hex⟩ := hsep hal
    obtain ⟨dblk, hdblk⟩ := Option.isSome_iff_exists.mp hex
    have hcpy := Mem.memcpy_lookup_self hdblk hsrc (w * k * 3).toNat
    rw [updateVideoDataCopy_reuse hal]
    refine ⟨rfl, ?_, ?_⟩
    · simp only [copyOutcome, hcpy, Option.map_some', copyInto]
      rw [List.take_append_of_le_length, List.take_take, Nat.min_self]
      rw [List.length_take]
      exact Nat.le_min.mpr ⟨Nat.le_refl _, hlen⟩
    · intro cs
      exact Mem.lookup_write_ne _ hne cs

/-- The caller's six-byte source buffer at address 1, for the C5 witness. -/
def c5mem : Mem := ⟨[(1, [10, 11, 12, 13, 14, 15])], 2, [], []⟩

/-- Witness for C5: copying a 1×2 frame from the six-byte buffer yields a
frame equal to those bytes, and overwriting the source afterwards leaves
the frame bytes unchanged. -/
theorem C5_copy_isolation_witness :
    Mem.WF c5mem ∧
    copySucceeded ((mkArVideoExternalSource "w5").updateVideoDataCopy true c5mem 1 1 2) = true ∧
    Option.map (List.take ((1 : Int) * 2 * 3).toNat)
      ((copyOutcome ((mkArVideoExternalSource "w5").updateVideoDataCopy true c5mem 1 1 2)).2.lookup
        (copyOutcome ((mkArVideoExternalSource "w5").updateVideoDataCopy true c5mem 1 1 2)).1.myData)
      = some (([10, 11, 12, 13, 14, 15] : Block).take ((1 : Int) * 2 * 3).toNat) ∧
    ((copyOutcome ((mkArVideoExternalSource "w5").updateVideoDataCopy true c5mem 1 1 2)).2.write 1
        [9, 9, 9, 9, 9, 9]).lookup
      (copyOutcome ((mkArVideoExternalSource "w5").updateVideoDataCopy true c5mem 1 1 2)).1.myData
      = (copyOutcome ((mkArVideoExternalSource "w5").updateVideoDataCopy true c5mem 1 1 2)).2.lookup
          (copyOutcome ((mkArVideoExternalSource "w5").updateVideoDataCopy true c5mem 1 1 2)).1.myData := by
  have H := C5_copy_isolation (mkArVideoExternalSource "w5") c5mem 1 1 2
    [10, 11, 12, 13, 14, 15] (by decide) rfl (by decide)
    (fun h => Bool.noConfusion h)
  exact ⟨by decide, H.1, H.2.1, H.2.2 [9, 9, 9, 9, 9, 9]⟩

/-- Claim C6: a copy update fails exactly when fresh backing memory is
needed but cannot be obtained, and such a failure is atomic: the buffer
pointer, ownership tag, dimensions, pending-update flag and the whole
heap are left exactly as before the call (no partial copy is
observable). -/
theorem C6_allocation_failure_atomic (s : ArVideoExternalSource)
    (ok : Bool) (m : Mem) (d : Nat) (w k : Int) :
    (copySucceeded (s.updateVideoDataCopy ok m d w k) = false ↔
      (s.myDataAllocated = false ∧ ok = false)) ∧
    (∀ e, s.updateVideoDataCopy ok m d w k = .error e →
      e.1.myData = s.myData ∧ e.1.myDataAllocated = s.myDataAllocated ∧
      e.1.myWidth = s.myWidth ∧ e.1.myHeight = s.myHeight ∧
      e.1.myUpdated = s.myUpdated ∧ e.2 = m) := by
  cases hal : s.myDataAllocated with
  | true =>
    rw [updateVideoDataCopy_reuse hal]
    refine ⟨by simp [copySucceeded, hal], ?_⟩
    intro e he
    simp at he
  | false =>
    cases ok with
    | true =>
      rw [updateVideoDataCopy_alloc hal]
      refine ⟨by simp [copySucceeded, hal], ?_⟩
      intro e he
      simp at he
    | false =>
      rw [updateVideoDataCopy_fail hal]
      refine ⟨Iff.intro (fun _ => ⟨rfl, rfl⟩) (fun _ => rfl), ?_⟩
      intro e he
      simp only [Except.error.injEq] at he
      subst he
      simp [ArVideoExternalSource.lock, hal]

/-- Witness for C6: on a fresh source with allocation failing, the call
throws and everything (here: the pending-update flag and the heap) is
unchanged. -/
theorem C6_allocation_failure_atomic_witness :
    ((mkArVideoExternalSource "w6").updateVideoDataCopy false Mem.empty 1 4 2
      = .error ((mkArVideoExternalSource "w6").lock, Mem.empty)) ∧
    ((mkArVideoExternalSource "w6").lock, Mem.empty).1.myUpdated
      = (mkArVideoExternalSource "w6").myUpdated ∧
    ((mkArVideoExternalSource "w6").lock, Mem.empty).2 = Mem.empty := by
  have H := (C6_allocation_failure_atomic (mkArVideoExternalSource "w6")
    false Mem.empty 1 4 2).2 ((mkArVideoExternalSource "w6").lock, Mem.empty) rfl
  exact ⟨rfl, H.2.2.2.2.1, H.2.2.2.2.2⟩

/-- Heap holding the caller's 24-byte source buffer, all bytes `0x7F`
(127), at address 1 — the input of the C1 scenario. -/
def c1mem : Mem := ⟨[(1, List.replicate 24 127)], 2, [], []⟩

/-- Outcome of the C1 scenario: `open()`, then
`updateVideoDataCopy(buf, 4, 2)` on a fresh source named `"cam0"`. -/
def c1run : ArVideoExternalSource × Mem :=
  copyOutcome
    ((mkArVideoExternalSource "cam0").openSource.updateVideoDataCopy true c1mem 1 4 2)

/-- Claim C1 is false as stated: in its scenario the update succeeds, but
`getWidth()` then returns 0, not 4, and `getHeight()` returns 0, not 2 —
`updateVideoDataCopy` never stores the dimensions it is passed. -/
theorem C1_counterexample :
    copySucceeded
      ((mkArVideoExternalSource "cam0").openSource.updateVideoDataCopy true c1mem 1 4 2)
      = true ∧
    c1run.1.getWidth = 0 ∧ ¬ (c1run.1.getWidth = 4) ∧
    c1run.1.getHeight = 0 ∧ ¬ (c1run.1.getHeight = 2) := by decide

/-- Claim C1 (amended): after `open()` and a successful
`updateFrameCopy` of a 24-byte buffer of `0x7F` with dimensions 4×2 on a
fresh source, `isFrameReady()` is true and the frame data is 24 bytes
all `0x7F`, but `getWidth()` and `getHeight()` still return 0, their
values from before the call, because the copy update does not store
dimensions. -/
theorem C1_amended_scenario :
    copySucceeded
      ((mkArVideoExternalSource "cam0").openSource.updateVideoDataCopy true c1mem 1 4 2)
      = true ∧
    c1run.1.updateVideoNow = true ∧
    c1run.1.isOpen = true ∧
    c1run.1.getWidth = 0 ∧
    c1run.1.getHeight = 0 ∧
    c1run.1.frameBytes c1run.2 = some (List.replicate 24 127) := by decide

/-- Claim C2 is false as stated: `setVideoDataPtr` is a successful update
operation (it returns `true`), yet immediately afterwards
`updateVideoNow()` is still false on a fresh source — the pointer-mode
update does not raise the flag (the caller must call `updated()`). -/
theorem C2_counterexample :
    ((mkArVideoExternalSource "cam0").setVideoDataPtr Mem.empty 5 2 2).2.2 = true ∧
    ((mkArVideoExternalSource "cam0").setVideoDataPtr Mem.empty 5 2 2).1.updateVideoNow
      = false := by decide

/-- Claim C2 (amended): `updateVideoNow()` is false in the initial state,
becomes true immediately after any successful `updateVideoDataCopy` and
after any `updated()` call, is left unchanged by `setVideoDataPtr`
(pointer-mode producers must call `updated()` themselves), and is
unaffected by `open()` and `close()`. -/
theorem C2_amended_updated_flag :
    (∀ name, (mkArVideoExternalSource name).updateVideoNow = false) ∧
    (∀ (s : ArVideoExternalSource) (ok : Bool) (m : Mem) (d : Nat) (w k : Int) r,
      s.updateVideoDataCopy ok m d w k = .ok r → r.1.updateVideoNow = true) ∧
    (∀ s : ArVideoExternalSource, s.updated.updateVideoNow = true) ∧
    (∀ (s : ArVideoExternalSource) (m : Mem) (p : Nat) (w k : Int),
      (s.setVideoDataPtr m p w k).1.updateVideoNow = s.updateVideoNow) ∧
    (∀ s : ArVideoExternalSource,
      s.openSource.updateVideoNow = s.updateVideoNow ∧
      s.close.updateVideoNow = s.updateVideoNow) := by
  refine ⟨fun name => rfl, ?_, fun s => rfl, ?_, fun s => ⟨rfl, rfl⟩⟩
  · intro s ok m d w k r hr
    cases hal : s.myDataAllocated with
    | true =>
      rw [updateVideoDataCopy_reuse hal] at hr
      simp only [Except.ok.injEq] at hr
      rw [← hr]
      rfl
    | false =>
      cases ok with
      | true =>
        rw [updateVideoDataCopy_alloc hal] at hr
        simp only [Except.ok.injEq] at hr
        rw [← hr]
        rfl
      | false =>
        rw [updateVideoDataCopy_fail hal] at hr
        simp at hr
  · intro s m p w k
    cases hal : s.myDataAllocated <;>
      simp [ArVideoExternalSource.setVideoDataPtr,
        ArVideoExternalSource.updateVideoNow, hal]

/-- Result of the copy update used in the C2 witness. -/
def c2run : ArVideoExternalSource × Mem × Bool :=
  (⟨"w2", false, true, 0, 0, true, 1, false⟩,
   ⟨[(1, [0, 0, 0])], 2, [], [(1, 3)]⟩, true)

/-- Witness for C2 (amended) at a concrete successful copy update: the
flag is raised. -/
theorem C2_amended_updated_flag_witness :
    ((mkArVideoExternalSource "w2").updateVideoDataCopy true Mem.empty 0 1 1 = .ok c2run) ∧
    c2run.1.updateVideoNow = true :=
  ⟨rfl, C2_amended_updated_flag.2.1 (mkArVideoExternalSource "w2") true Mem.empty
    0 1 1 c2run rfl⟩
